import Mathlib

/-!
Verification of the kubernetes-traffic-flow-tests repository.

This file gives a shallow embedding of the parts of the source relevant
to the checked properties:
* `testTypeIperf.py` — the iperf protocol handler (`calculate_gbps` and
  its TCP/UDP helpers);
* `pluginMeasurePower.py` — the power-measurement polling loop;
* `testConfig.py` — the configuration parser/serializer
  (`ConfConfig`, `ConfTest`, `ConfConnection`, the node types) and
  `ConfigDescriptor._post_check`.

Python raw result mappings and YAML documents are embedded as the
inductive `JValue`.  Machine floats are idealized as rationals.
Exceptions are embedded as `Except` errors.
-/

/-- Embedding of a Python/YAML/JSON value.  Python `int` and `float` are
kept separate (`intg` vs `num`) because the config parser requires exact
ints while the iperf results hold floats; both are idealized as `ℤ`/`ℚ`.
Dictionaries are association lists (Python dicts have unique keys; lookup
is first-match). -/
inductive JValue where
  | null : JValue
  | bool (b : Bool) : JValue
  | intg (z : ℤ) : JValue
  | num (q : ℚ) : JValue
  | str (s : String) : JValue
  | arr (xs : List JValue) : JValue
  | obj (fields : List (String × JValue)) : JValue

/-- Python exception classes that the embedded code can raise. -/
inductive PyErr where
  | keyError : PyErr
  | typeError : PyErr
  | zeroDiv : PyErr
  /-- a `raise Exception(msg)` / `raise pctx.value_error(msg)` with a message -/
  | exc (msg : String) : PyErr
deriving DecidableEq

namespace JValue

/-- Python `d[k]` on an embedded value: `KeyError` when the key is absent,
`TypeError` when the value is not a dict (mirrors subscripting a non-dict). -/
def pyGet (v : JValue) (k : String) : Except PyErr JValue :=
  match v with
  | .obj fields =>
    match fields.lookup k with
    | some x => .ok x
    | none => .error .keyError
  | _ => .error .typeError

/-- Python `k in d` (dict key membership); `False` on non-dicts. -/
def hasKey (v : JValue) (k : String) : Bool :=
  match v with
  | .obj fields => (fields.lookup k).isSome
  | _ => false

/-- A Python numeric (int or float) read as a rational; anything else is a
`TypeError` (mirrors `x / 1e9` on a non-number). -/
def asNum (v : JValue) : Except PyErr ℚ :=
  match v with
  | .intg z => .ok (z : ℚ)
  | .num q => .ok q
  | _ => .error .typeError

end JValue

/-! ### Bitrate

`tftbase.py` is not part of the given sources.  Modelled from the spec:
"Bitrate: {tx, rx} in Gbps; either may be unset (NA) meaning
unmeasurable/failed".  `none` stands for the unset/NA state. -/

/-- Modelled from the spec: `tftbase.Bitrate`, a pair of optional Gbps
values, `none` meaning NA/unmeasurable. -/
structure Bitrate where
  tx : Option ℚ
  rx : Option ℚ
deriving DecidableEq

/-- Modelled from the spec: `Bitrate.NA`, both directions unset. -/
def Bitrate.NA : Bitrate := ⟨none, none⟩

/-- Modelled from the spec and `src/tests`: the test-type enum
(`tftbase.TestType`); the handler in `src/testTypeIperf.py` distinguishes
only `IPERF_TCP` from everything else. -/
inductive TestType where
  | IPERF_TCP : TestType
  | IPERF_UDP : TestType
  | SIMPLE : TestType
deriving DecidableEq

/-! ### 5-significant-digit rounding

The source computes `float(f"{x:.5g}")`.  Python's `.5g` format rounds
the decimal expansion to 5 significant digits with round-half-to-even.
We idealize floats as rationals and embed that decimal rounding. -/

/-- Round a rational to the nearest integer, ties to even
(the rounding used by Python string formatting). -/
def roundHalfEven (q : ℚ) : ℤ :=
  let f := ⌊q⌋
  let frac := q - (f : ℚ)
  if frac < 1/2 then f
  else if 1/2 < frac then f + 1
  else if f % 2 = 0 then f else f + 1

/-- `f"{q:.5g}"` idealized on rationals: round to 5 significant decimal
digits, ties to even.  `Int.log 10 |q|` is the floor of the decimal
logarithm, so the kept digits are those down to position
`Int.log 10 |q| - 4`. -/
def sigRound5 (q : ℚ) : ℚ :=
  if q = 0 then 0
  else
    let k : ℤ := Int.log 10 |q| - 4
    (roundHalfEven (q * (10 : ℚ) ^ (-k)) : ℚ) * (10 : ℚ) ^ k

/-! ### `TestTypeHandlerIperf` (src/testTypeIperf.py) -/

/-- The body of the `try` block in `_calculate_gbps_tcp`
(src/testTypeIperf.py:42-43): the `end.sum_sent` / `end.sum_received`
lookups. -/
def tcp_sum_lookups (result : JValue) : Except PyErr (JValue × JValue) := do
  let e ← result.pyGet "end"
  let ss ← e.pyGet "sum_sent"
  let sr ← e.pyGet "sum_received"
  pure (ss, sr)

/-- `TestTypeHandlerIperf._calculate_gbps_tcp` (src/testTypeIperf.py:40-57).
The `try` block only covers the `end.sum_sent` / `end.sum_received`
lookups and only catches `KeyError`, re-raising a wrapped `Exception`;
the later `bits_per_second` lookups and the divisions are outside it, so
their `KeyError`/`TypeError` propagates unchanged. -/
def calculate_gbps_tcp (result : JValue) : Except PyErr Bitrate :=
  match tcp_sum_lookups result with
  | .error .keyError =>
    .error (.exc "calculate_gbps_iperf_tcp(): failed to parse iperf test results")
  | .error e => .error e
  | .ok (ss, sr) => do
    let bs ← ss.pyGet "bits_per_second"
    let bitrate_sent ← bs.asNum
    let br ← sr.pyGet "bits_per_second"
    let bitrate_received ← br.asNum
    pure { tx := some (sigRound5 (bitrate_sent / 1000000000))
           rx := some (sigRound5 (bitrate_received / 1000000000)) }

/-- The `end.sum` lookup of `_calculate_gbps_udp` (src/testTypeIperf.py:61). -/
def udp_sum_lookup (result : JValue) : Except PyErr JValue := do
  let e ← result.pyGet "end"
  e.pyGet "sum"

/-- `TestTypeHandlerIperf._calculate_gbps_udp` (src/testTypeIperf.py:59-65).
No exception handling at all: missing keys raise.  UDP only has sender
traffic; the sender bitrate is duplicated into both fields. -/
def calculate_gbps_udp (result : JValue) : Except PyErr Bitrate := do
  let sum_data ← udp_sum_lookup result
  let bs ← sum_data.pyGet "bits_per_second"
  let bitrate_sent ← bs.asNum
  pure { tx := some (sigRound5 (bitrate_sent / 1000000000))
         rx := some (sigRound5 (bitrate_sent / 1000000000)) }

/-- `TestTypeHandlerIperf.calculate_gbps` (src/testTypeIperf.py:67-75):
an `error` key short-circuits to `Bitrate.NA`; otherwise dispatch on the
handler's test type (`IPERF_TCP` vs everything else). -/
def calculate_gbps (test_type : TestType) (result : JValue) : Except PyErr Bitrate :=
  if result.hasKey "error" then .ok Bitrate.NA
  else if test_type = TestType.IPERF_TCP then calculate_gbps_tcp result
  else calculate_gbps_udp result


/-! ### `pluginMeasurePower.py`

The looping probe of `TaskMeasurePower._create_task_operation`
(src/pluginMeasurePower.py:73-115).  The environment provides what the
remote side does: the value the `event_client_finished.is_set()` check
reads at each loop head, and the `run_oc_exec` result of each iteration.
The loop itself, the state it threads, and the order of its observable
events (flag checks, remote commands, sleeps, the final emission of the
aggregate record) are embedded from the source. -/

/-- The `host.Result` of a remote `run_oc_exec` call, restricted to the
fields the plugin reads (`success`, `out`). -/
structure CmdRes where
  success : Bool
  out : String
deriving DecidableEq

/-- Digits to a natural number, most significant first (Python `int(...)`
on the matched digit group). -/
def digitsToNat (ds : List Char) : ℕ :=
  ds.foldl (fun n c => 10 * n + (c.toNat - 48)) 0

/-- Consume an exact literal from the head of the input, or fail. -/
def stripLit : List Char → List Char → Option (List Char)
  | [], cs => some cs
  | _ :: _, [] => none
  | l :: ls, c :: cs => if c = l then stripLit ls cs else none

/-- One line matched against the regular expression
`^ *Instantaneous power reading: +(\\d+) +Watts *$` of `_extract`
(src/pluginMeasurePower.py:46), returning the digit group. -/
def matchPowerLine (line : List Char) : Option ℕ :=
  let cs := line.dropWhile (fun c => c = ' ')
  match stripLit "Instantaneous power reading:".data cs with
  | none => none
  | some cs =>
    match cs with
    | [] => none
    | c :: rest =>
      if c = ' ' then
        let cs := rest.dropWhile (fun c => c = ' ')
        let ds := cs.takeWhile Char.isDigit
        let cs2 := cs.dropWhile Char.isDigit
        if ds.isEmpty then none
        else
          match cs2 with
          | [] => none
          | c2 :: rest2 =>
            if c2 = ' ' then
              let cs3 := rest2.dropWhile (fun c => c = ' ')
              match stripLit "Watts".data cs3 with
              | none => none
              | some cs4 =>
                if (cs4.dropWhile (fun c => c = ' ')).isEmpty then some (digitsToNat ds)
                else none
            else none
      else none

/-- Split a character list at newlines (Python `str.split` on a single
newline separator). -/
def splitLinesAux : List Char → List Char → List (List Char)
  | [], acc => [acc.reverse]
  | c :: cs, acc =>
    if c = '\n' then acc.reverse :: splitLinesAux cs []
    else splitLinesAux cs (c :: acc)

/-- `_extract` (src/pluginMeasurePower.py:44-49): scan the output lines,
return the first matched instantaneous power reading. -/
def measure_extract (ipmitool_output : String) : Option ℕ :=
  (splitLinesAux ipmitool_output.data []).findSome? matchPowerLine

/-- The environment of one run of the polling loop: the flag value the
`event_client_finished.is_set()` check reads at loop head `n`, and the
`run_oc_exec` result of iteration `n`. -/
structure PowerEnv where
  flagAt : ℕ → Bool
  cmdRes : ℕ → CmdRes

/-- The local state threaded through the polling loop
(src/pluginMeasurePower.py:78-82). -/
structure PowerState where
  success_result : Bool
  msg : Option String
  total_pwr : ℕ
  iteration : ℕ
  failed_cmd : Option CmdRes
deriving DecidableEq

/-- src/pluginMeasurePower.py:78-82: the initial loop state. -/
def initPowerState : PowerState :=
  { success_result := true, msg := none, total_pwr := 0, iteration := 0,
    failed_cmd := none }

/-- Observable events of the thread action, in program order. -/
inductive PowerEv where
  /-- an `event_client_finished.is_set()` check reading `b` -/
  | check (b : Bool) : PowerEv
  /-- the `run_oc_exec` remote command of iteration `n` -/
  | cmd (n : ℕ) : PowerEv
  /-- a `time.sleep` of `d` seconds -/
  | sleep (d : ℚ) : PowerEv
  /-- returning the aggregate `PluginOutput` record -/
  | emit : PowerEv
deriving DecidableEq

/-- The body of the `while` loop (src/pluginMeasurePower.py:84-100) for
iteration `n`: run the remote command, classify, accumulate, count. -/
def powerLoopBody (env : PowerEnv) (n : ℕ) (st : PowerState) : PowerState :=
  let r := env.cmdRes n
  let st :=
    if !r.success then
      if st.success_result then
        { st with success_result := false, failed_cmd := some r,
                  msg := some "Failed running ipmitool command" }
      else st
    else
      match measure_extract r.out with
      | none =>
        if st.success_result then
          { st with success_result := false, failed_cmd := some r,
                    msg := some "Failed to parse ipmitool output" }
        else st
      | some pwr => { st with total_pwr := st.total_pwr + pwr }
  { st with iteration := st.iteration + 1 }

/-- The `while not self.ts.event_client_finished.is_set()` loop
(src/pluginMeasurePower.py:83-100), with the events it performs.  `fuel`
bounds the number of loop heads we unfold (`none` = the flag was not
observed within `fuel` checks); each iteration checks the flag, runs the
remote command and sleeps 0.2 seconds. -/
def powerLoop (env : PowerEnv) : ℕ → ℕ → PowerState → Option (PowerState × List PowerEv)
  | 0, _, _ => none
  | fuel + 1, n, st =>
    if env.flagAt n then some (st, [PowerEv.check true])
    else
      match powerLoop env fuel (n + 1) (powerLoopBody env n st) with
      | none => none
      | some (st2, evs) =>
        some (st2, PowerEv.check false :: PowerEv.cmd n :: PowerEv.sleep (1/5) :: evs)


/-- The fields of the `PluginOutput` record the thread action returns
(src/pluginMeasurePower.py:104-110); `plugin_metadata` is supplied by an
external collaborator and is omitted.  `result["measure_power"]` is kept
as the rational average rather than its string form. -/
structure PluginOutputPower where
  success : Bool
  msg : Option String
  command : String
  failed_cmd : Option CmdRes
  measure_power : ℚ
deriving DecidableEq

/-- The aggregate record built after the loop
(src/pluginMeasurePower.py:102-110); `measure_power` is
`total_pwr / iteration`. -/
def powerOutput (st : PowerState) : PluginOutputPower :=
  { success := st.success_result, msg := st.msg,
    command := "ipmitool dcmi power reading",
    failed_cmd := st.failed_cmd,
    measure_power := (st.total_pwr : ℚ) / (st.iteration : ℚ) }

/-- `_thread_action` (src/pluginMeasurePower.py:74-110): run the loop,
then average.  When the loop ran zero iterations the averaging
`total_pwr/iteration` raises `ZeroDivisionError` (embedded as
`.error .zeroDiv`) and nothing is emitted; otherwise the aggregate
record is emitted after the loop. -/
def thread_action (env : PowerEnv) (fuel : ℕ) :
    Option (Except PyErr PluginOutputPower × List PowerEv) :=
  match powerLoop env fuel 0 initPowerState with
  | none => none
  | some (st, evs) =>
    if st.iteration = 0 then some (.error .zeroDiv, evs)
    else some (.ok (powerOutput st), evs ++ [PowerEv.emit])

/-- `k` further iterations of the loop body starting at iteration `n`
(the final state of a loop that runs iterations `n, …, n+k-1`). -/
def loopIter (env : PowerEnv) : ℕ → ℕ → PowerState → PowerState
  | _, 0, st => st
  | n, k + 1, st => loopIter env (n + 1) k (powerLoopBody env n st)

/-- The event trace of a loop run that observes the finished flag at its
`s`-th check: `s` iterations of (unset check, remote command, 0.2 s
sleep), then the final check that reads the flag set. -/
def loopTrace (s : ℕ) : List PowerEv :=
  (List.range s).flatMap
    (fun n => [PowerEv.check false, PowerEv.cmd n, PowerEv.sleep (1/5)]) ++
  [PowerEv.check true]


/-! ### Configuration model (src/testConfig.py)

The parser/serializer tree `ConfConfig` → `ConfTest` → `ConfConnection` →
node/plugin entries, and `ConfigDescriptor._post_check`.  The positional
bookkeeping fields `yamlidx`/`yamlpath` are derived from the position in
the document and are not modelled as data; parsers take the list index
as an argument because default names are templated from it.

The `ktoolbox.common.structparse_*` helpers and the enums/registries of
`tftbase.py`/`pluginbase.py`/`testType.py` are external to the given
sources; they are modelled from their use in `src/testConfig.py` and the
spec: a `structparse_pop_*` helper pops one key, type-checks the value,
applies its default when the key is absent (an explicit YAML `null` is
treated like an absent key), and the surrounding `with_strdict` context
rejects keys that no pop consumed; `structparse_pop_objlist` defaults to
allowing an empty or absent list (`ConfTest.parse` has to pass
`allow_empty=False` explicitly for `connections`). -/

/-- Modelled from the spec and `src/tests`: `tftbase.TestCaseType`
(a representative subset of topology variants; only names matter here). -/
inductive TestCaseType where
  | POD_TO_POD_SAME_NODE : TestCaseType
  | POD_TO_POD_DIFF_NODE : TestCaseType
  | POD_TO_HOST_SAME_NODE : TestCaseType
  | POD_TO_HOST_DIFF_NODE : TestCaseType
  | POD_TO_EXTERNAL : TestCaseType
  | HOST_TO_EXTERNAL : TestCaseType
deriving DecidableEq

/-- The `.name` of a `TestCaseType` value. -/
def testCaseName : TestCaseType → String
  | .POD_TO_POD_SAME_NODE => "POD_TO_POD_SAME_NODE"
  | .POD_TO_POD_DIFF_NODE => "POD_TO_POD_DIFF_NODE"
  | .POD_TO_HOST_SAME_NODE => "POD_TO_HOST_SAME_NODE"
  | .POD_TO_HOST_DIFF_NODE => "POD_TO_HOST_DIFF_NODE"
  | .POD_TO_EXTERNAL => "POD_TO_EXTERNAL"
  | .HOST_TO_EXTERNAL => "HOST_TO_EXTERNAL"

/-- Name lookup for `TestCaseType` (the by-name conversion of
`common.enum_convert`). -/
def testCaseOfName (s : String) : Option TestCaseType :=
  if s = "POD_TO_POD_SAME_NODE" then some .POD_TO_POD_SAME_NODE
  else if s = "POD_TO_POD_DIFF_NODE" then some .POD_TO_POD_DIFF_NODE
  else if s = "POD_TO_HOST_SAME_NODE" then some .POD_TO_HOST_SAME_NODE
  else if s = "POD_TO_HOST_DIFF_NODE" then some .POD_TO_HOST_DIFF_NODE
  else if s = "POD_TO_EXTERNAL" then some .POD_TO_EXTERNAL
  else if s = "HOST_TO_EXTERNAL" then some .HOST_TO_EXTERNAL
  else none

/-- All test cases, in declaration order (`"*"` expands to this). -/
def allTestCases : List TestCaseType :=
  [.POD_TO_POD_SAME_NODE, .POD_TO_POD_DIFF_NODE, .POD_TO_HOST_SAME_NODE,
   .POD_TO_HOST_DIFF_NODE, .POD_TO_EXTERNAL, .HOST_TO_EXTERNAL]

/-- The `.name` of a `TestType` value. -/
def testTypeName : TestType → String
  | .IPERF_TCP => "IPERF_TCP"
  | .IPERF_UDP => "IPERF_UDP"
  | .SIMPLE => "SIMPLE"

/-- Name lookup for `TestType` (`structparse_pop_enum`). -/
def testTypeOfName (s : String) : Option TestType :=
  if s = "IPERF_TCP" then some .IPERF_TCP
  else if s = "IPERF_UDP" then some .IPERF_UDP
  else if s = "SIMPLE" then some .SIMPLE
  else none

/-- Modelled from the spec: `TestTypeHandler.get` succeeds for the
registered protocol handlers (iperf TCP/UDP are registered in
`src/testTypeIperf.py`; the simple echo test per the spec). -/
def testTypeHandled : TestType → Bool := fun _ => true

/-- Modelled from the spec: `tftbase.PodType`. -/
inductive PodType where
  | NORMAL : PodType
  | SRIOV : PodType
deriving DecidableEq

/-- Modelled from the spec: the plugin registry names
(`pluginMeasureCpu.PLUGIN_NAME = "measure_cpu"`,
`PluginMeasurePower.PLUGIN_NAME = "measure_power"`). -/
inductive PluginKind where
  | measure_cpu : PluginKind
  | measure_power : PluginKind
deriving DecidableEq

/-- `pluginbase.get_by_name`. -/
def pluginGetByName (s : String) : Option PluginKind :=
  if s = "measure_cpu" then some .measure_cpu
  else if s = "measure_power" then some .measure_power
  else none

/-- The registered name of a plugin. -/
def pluginKindName : PluginKind → String
  | .measure_cpu => "measure_cpu"
  | .measure_power => "measure_power"

/-- Modelled from `ktoolbox.common.validate_dns_name`: a nonempty string
of lowercase alphanumerics, `-` and `.` (the exact character policy of
the external helper is irrelevant here: parsing applies the same check
on both sides of the round trip). -/
def validate_dns_name (s : String) : Bool :=
  !s.data.isEmpty &&
    s.data.all (fun c => (c.isLower || c.isDigit) || (c = '-' || c = '.'))

/-- Split a string into whitespace-separated words (a model of
`shlex.split` on quote-free input; `shlex` is Python stdlib and only its
str-argument branch of `args` parsing uses it). -/
def splitWordsAux : List Char → List Char → List String
  | [], acc => if acc.isEmpty then [] else [String.mk acc.reverse]
  | c :: cs, acc =>
    if c = ' ' then
      if acc.isEmpty then splitWordsAux cs []
      else String.mk acc.reverse :: splitWordsAux cs []
    else splitWordsAux cs (c :: acc)

/-- Modelled `shlex.split` (never fails on quote-free input). -/
def shlexSplit (s : String) : Option (List String) :=
  some (splitWordsAux s.data [])

/-! #### structparse primitives (modelled from ktoolbox.common) -/

/-- The value of key `k`, with an explicit `null` treated like an absent
key. -/
def jfield (fields : List (String × JValue)) (k : String) : Option JValue :=
  match fields.lookup k with
  | some JValue.null => none
  | x => x

/-- `structparse_pop_str` with an optional-string default of `None`. -/
def popStrOpt (fields : List (String × JValue)) (k : String) :
    Except PyErr (Option String) :=
  match jfield fields k with
  | none => .ok none
  | some (.str s) => .ok (some s)
  | some _ => .error (.exc ("key " ++ k ++ " expects a string"))

/-- `structparse_pop_str` with a string default. -/
def popStrD (fields : List (String × JValue)) (k d : String) :
    Except PyErr String :=
  match jfield fields k with
  | none => .ok d
  | some (.str s) => .ok s
  | some _ => .error (.exc ("key " ++ k ++ " expects a string"))

/-- `structparse_pop_str_name` without a default: the `name` key is
mandatory; `check` is applied when given. -/
def popNameChecked (fields : List (String × JValue)) (check : String → Bool) :
    Except PyErr String :=
  match jfield fields "name" with
  | none => .error (.exc "mandatory key name missing")
  | some (.str s) => if check s then .ok s else .error (.exc "invalid name")
  | some _ => .error (.exc "key name expects a string")

/-- `structparse_pop_bool` with a boolean default. -/
def popBoolD (fields : List (String × JValue)) (k : String) (d : Bool) :
    Except PyErr Bool :=
  match jfield fields k with
  | none => .ok d
  | some (.bool b) => .ok b
  | some _ => .error (.exc ("key " ++ k ++ " expects a boolean"))

/-- `structparse_pop_bool` with default `None`. -/
def popBoolOpt (fields : List (String × JValue)) (k : String) :
    Except PyErr (Option Bool) :=
  match jfield fields k with
  | none => .ok none
  | some (.bool b) => .ok (some b)
  | some _ => .error (.exc ("key " ++ k ++ " expects a boolean"))

/-- `structparse_pop_int` with a default and a `check` predicate. -/
def popIntCheck (fields : List (String × JValue)) (k : String) (d : ℤ)
    (check : ℤ → Bool) : Except PyErr ℤ :=
  match jfield fields k with
  | none => if check d then .ok d else .error (.exc ("key " ++ k ++ " value out of range"))
  | some (.intg z) =>
    if check z then .ok z else .error (.exc ("key " ++ k ++ " value out of range"))
  | some _ => .error (.exc ("key " ++ k ++ " expects an integer"))

/-- Parse each element of a list, threading the element index (the
`yamlidx` that default names are templated from). -/
def parseListIdx {α : Type} (construct : ℕ → JValue → Except PyErr α) :
    ℕ → List JValue → Except PyErr (List α)
  | _, [] => .ok []
  | i, x :: xs => do
    let a ← construct i x
    let rest ← parseListIdx construct (i + 1) xs
    .ok (a :: rest)

/-- `structparse_pop_objlist`: an absent key yields the empty list; the
value must be a list; `allowEmpty = false` (the explicit
`allow_empty=False` call sites) rejects an empty result. -/
def popObjList {α : Type} (fields : List (String × JValue)) (k : String)
    (construct : ℕ → JValue → Except PyErr α) (allowEmpty : Bool) :
    Except PyErr (List α) :=
  match jfield fields k with
  | none =>
    if allowEmpty then .ok []
    else .error (.exc ("key " ++ k ++ " list cannot be empty"))
  | some (.arr xs) => do
    let l ← parseListIdx construct 0 xs
    if !allowEmpty && l.isEmpty then
      .error (.exc ("key " ++ k ++ " list cannot be empty"))
    else .ok l
  | some _ => .error (.exc ("key " ++ k ++ " expects a list"))

/-- Every key of the mapping was consumed by some pop
(the unknown-key rejection of `with_strdict` at block exit). -/
def keysOk (fields : List (String × JValue)) (known : List String) : Bool :=
  fields.all (fun kv => known.contains kv.1)

/-- Continue when every key was consumed, otherwise the unknown-key
error of `with_strdict`. -/
def guardKeys {α : Type} (b : Bool) (x : Except PyErr α) : Except PyErr α :=
  match b with
  | true => x
  | false => .error (.exc "unknown keys")


/-! #### The configuration tree -/

/-- `ConfNodeServer` (src/testConfig.py:211-228): the fields of a parsed
server node (`pod_type` is derived from `sriov` at parse time but stored
as a field, exactly as in the source). -/
structure ConfNodeServer where
  name : String
  sriov : Bool
  pod_type : PodType
  default_network : String
  privileged_pod : Option Bool
  args : Option (List String)
  persistent : Bool
deriving DecidableEq

/-- `ConfNodeClient` (src/testConfig.py:231-236). -/
structure ConfNodeClient where
  name : String
  sriov : Bool
  pod_type : PodType
  default_network : String
  privileged_pod : Option Bool
  args : Option (List String)
deriving DecidableEq

/-- `ConfPlugin` (src/testConfig.py:183-208): the reference name and the
resolved registry entry. -/
structure ConfPlugin where
  name : String
  plugin : PluginKind
deriving DecidableEq

/-- `ConfConnection` (src/testConfig.py:239-281).  `test_type_handler` is
omitted: it is the registry resolution of `test_type` (derived).
`nspace` embeds the `namespace` field (a Lean keyword), passed down from
the owning test group rather than read from YAML. -/
structure ConfConnection where
  name : String
  test_type : TestType
  instances : ℤ
  server : List ConfNodeServer
  client : List ConfNodeClient
  plugins : List ConfPlugin
  secondary_network_nad : Option String
  resource_name : Option String
  nspace : String
deriving DecidableEq

/-- `ConfTest` (src/testConfig.py:382-409).  `logs` is kept as the path
string (`pathlib.Path` construction is Python stdlib; identity model). -/
structure ConfTest where
  name : String
  nspace : String
  test_cases : List TestCaseType
  duration : ℤ
  privileged_pod : Bool
  connections : List ConfConnection
  logs : String
deriving DecidableEq

/-- `ConfConfig` (src/testConfig.py:516-540). -/
structure ConfConfig where
  tft : List ConfTest
  kubeconfig : Option String
  kubeconfig_infra : Option String
deriving DecidableEq

/-! #### Parsing -/

/-- A list value read as a list of strings
(`all(isinstance(x, str) for x in arg)` plus the extraction). -/
def strListOfJ : List JValue → Option (List String)
  | [] => some []
  | JValue.str s :: xs =>
    match strListOfJ xs with
    | some l => some (s :: l)
    | none => none
  | _ => none

/-- `_construct_args` (src/testConfig.py:126-143): a string is split like
a command line; a list must be all strings. -/
def construct_args (v : JValue) : Except PyErr (List String) :=
  match v with
  | .str s =>
    match shlexSplit s with
    | some l => .ok l
    | none => .error (.exc "cannot parse command line")
  | .arr xs =>
    match strListOfJ xs with
    | some l => .ok l
    | none => .error (.exc "expects a list of strings")
  | _ => .error (.exc "expects a string or a list of strings")

/-- `structparse_pop_obj` for the `args` key (default `None`). -/
def popArgs (fields : List (String × JValue)) :
    Except PyErr (Option (List String)) :=
  match jfield fields "args" with
  | none => .ok none
  | some v => (construct_args v).map some

/-- The `default_network` / `default-network` fallback of
`ConfNodeBase._parse` (src/testConfig.py:111-119): the dashed key is
consulted (and consumed) only when the primary key yielded nothing. -/
def popDefaultNetwork (fields : List (String × JValue)) (dn0 : Option String) :
    Except PyErr String :=
  match dn0 with
  | some s => .ok s
  | none => popStrD fields "default-network" "default/default"

/-- `ConfNodeBase._parse` specialized to `ConfNodeServer`
(src/testConfig.py:94-172): name (DNS-checked), `sriov` (default false),
`default_network` with the `default-network` fallback key (the fallback
is only consumed when the primary key is absent), optional
`privileged_pod`, optional `args`, and — for servers only — `persistent`
(default false); unknown keys are rejected at block exit; `pod_type`
derives from `sriov`. -/
def conf_node_server_parse (v : JValue) : Except PyErr ConfNodeServer :=
  match v with
  | .obj fields => do
    let name ← popNameChecked fields validate_dns_name
    let sriov ← popBoolD fields "sriov" false
    let dn0 ← popStrOpt fields "default_network"
    let default_network ← popDefaultNetwork fields dn0
    let privileged_pod ← popBoolOpt fields "privileged_pod"
    let args ← popArgs fields
    let persistent ← popBoolD fields "persistent" false
    let known := ["name", "sriov", "default_network", "privileged_pod", "args",
      "persistent"]
    let known := if dn0 = none then "default-network" :: known else known
    guardKeys (keysOk fields known)
      (.ok { name := name, sriov := sriov,
             pod_type := if sriov then PodType.SRIOV else PodType.NORMAL,
             default_network := default_network, privileged_pod := privileged_pod,
             args := args, persistent := persistent })
  | _ => .error .typeError

/-- `ConfNodeBase._parse` specialized to `ConfNodeClient`: as the server
variant but without the `persistent` key (a `persistent` key on a client
is an unknown key). -/
def conf_node_client_parse (v : JValue) : Except PyErr ConfNodeClient :=
  match v with
  | .obj fields => do
    let name ← popNameChecked fields validate_dns_name
    let sriov ← popBoolD fields "sriov" false
    let dn0 ← popStrOpt fields "default_network"
    let default_network ← popDefaultNetwork fields dn0
    let privileged_pod ← popBoolOpt fields "privileged_pod"
    let args ← popArgs fields
    let known := ["name", "sriov", "default_network", "privileged_pod", "args"]
    let known := if dn0 = none then "default-network" :: known else known
    guardKeys (keysOk fields known)
      (.ok { name := name, sriov := sriov,
             pod_type := if sriov then PodType.SRIOV else PodType.NORMAL,
             default_network := default_network, privileged_pod := privileged_pod,
             args := args })
  | _ => .error .typeError

/-- `ConfNodeBase._validate` (src/testConfig.py:174-180): `args` is only
supported with the `SIMPLE` test type. -/
def conf_node_args_ok (args : Option (List String)) (test_type : TestType) :
    Except PyErr Unit :=
  match args with
  | none => .ok ()
  | some _ =>
    if test_type = TestType.SIMPLE then .ok ()
    else .error (.exc "args not supported with test type")

/-- `ConfPlugin.parse` (src/testConfig.py:188-208): either a bare name
string or a mapping with only a `name` key; the name resolves through
the plugin registry (after the unknown-key check, which happens at the
`with` block exit before the registry lookup). -/
def conf_plugin_parse (v : JValue) : Except PyErr ConfPlugin :=
  match v with
  | .str name =>
    match pluginGetByName name with
    | some p => .ok { name := name, plugin := p }
    | none => .error (.exc "unknown plugin")
  | .obj fields => do
    let name ← popNameChecked fields (fun _ => true)
    guardKeys (keysOk fields ["name"])
      (match pluginGetByName name with
       | some p => .ok { name := name, plugin := p }
       | none => .error (.exc "unknown plugin"))
  | _ => .error .typeError

/-- The `for s in server: s._validate(test_type)` loop
(src/testConfig.py:360-361). -/
def validate_each_server : List ConfNodeServer → TestType → Except PyErr Unit
  | [], _ => .ok ()
  | s :: rest, tt => do
    let _ ← conf_node_args_ok s.args tt
    validate_each_server rest tt

/-- The `for c in client: c._validate(test_type)` loop
(src/testConfig.py:363-364). -/
def validate_each_client : List ConfNodeClient → TestType → Except PyErr Unit
  | [], _ => .ok ()
  | c :: rest, tt => do
    let _ ← conf_node_args_ok c.args tt
    validate_each_client rest tt

/-- The `_validate` loops of `ConfConnection.parse`
(src/testConfig.py:360-364). -/
def conf_connection_validate (server : List ConfNodeServer)
    (client : List ConfNodeClient) (test_type : TestType) :
    Except PyErr Unit := do
  let _ ← validate_each_server server test_type
  let _ ← validate_each_client client test_type
  .ok ()

/-- `structparse_pop_enum` for the connection `type` key
(default `IPERF_TCP`). -/
def popConnType (fields : List (String × JValue)) : Except PyErr TestType :=
  match jfield fields "type" with
  | none => .ok TestType.IPERF_TCP
  | some (.str s) =>
    match testTypeOfName s with
    | some tt => .ok tt
    | none => .error (.exc "not a valid TestType")
  | some _ => .error (.exc "key type expects a string")

/-- `TestTypeHandler.get` (src/testConfig.py:312-317): fails for an
unimplemented test type. -/
def checkHandled (tt : TestType) : Except PyErr Unit :=
  if testTypeHandled tt then .ok () else .error (.exc "test type is not implemented")

/-- `ConfConnection.parse` (src/testConfig.py:292-379): name defaulted
from the owning test and position, `type` (default `IPERF_TCP`) with the
handler-registry check, `instances > 0` (default 1), the three object
lists, two optional strings; then — after the unknown-key check — the
at-most-one-server / at-most-one-client restriction and node
validation.  `test_name` and `nspace` are the parameters the owning
`ConfTest.parse` passes down. -/
def conf_connection_parse (idx : ℕ) (test_name nspace : String) (v : JValue) :
    Except PyErr ConfConnection :=
  match v with
  | .obj fields => do
    let name ← popStrD fields "name"
      ("Connection " ++ test_name ++ "/" ++ toString (idx + 1))
    let test_type ← popConnType fields
    let _ ← checkHandled test_type
    let instances ← popIntCheck fields "instances" 1 (fun z => 0 < z)
    let server ← popObjList fields "server" (fun _ x => conf_node_server_parse x) true
    let client ← popObjList fields "client" (fun _ x => conf_node_client_parse x) true
    let plugins ← popObjList fields "plugins" (fun _ x => conf_plugin_parse x) true
    let secondary_network_nad ← popStrOpt fields "secondary_network_nad"
    let resource_name ← popStrOpt fields "resource_name"
    guardKeys (keysOk fields ["name", "type", "instances", "server", "client",
        "plugins", "secondary_network_nad", "resource_name"])
      (if server.length > 1 then
        .error (.exc "currently only one server entry is supported")
      else if client.length > 1 then
        .error (.exc "currently only one client entry is supported")
      else do
        let _ ← conf_connection_validate server client test_type
        .ok { name := name, test_type := test_type, instances := instances,
              server := server, client := client, plugins := plugins,
              secondary_network_nad := secondary_network_nad,
              resource_name := resource_name, nspace := nspace })
  | _ => .error .typeError

/-- A list value read as a list of test-case names
(`common.enum_convert_list` on a list of name strings). -/
def testCaseListOfJ : List JValue → Option (List TestCaseType)
  | [] => some []
  | JValue.str s :: xs =>
    match testCaseOfName s, testCaseListOfJ xs with
    | some t, some l => some (t :: l)
    | _, _ => none
  | _ => none

/-- `_construct_test_cases` (src/testConfig.py:426-439): `None` or the
empty string mean `"*"` (all test cases); otherwise
`enum_convert_list`, modelled for the forms the tree produces: `"*"`, a
single name, or a list of names. -/
def construct_test_cases (v : JValue) : Except PyErr (List TestCaseType) :=
  let v' := match v with
    | JValue.null => JValue.str "*"
    | JValue.str s => if s = "" then JValue.str "*" else JValue.str s
    | x => x
  match v' with
  | .str s =>
    if s = "*" then .ok allTestCases
    else
      match testCaseOfName s with
      | some t => .ok [t]
      | none => .error (.exc "value is not a valid list of test cases")
  | .arr xs =>
    match testCaseListOfJ xs with
    | some l => .ok l
    | none => .error (.exc "value is not a valid list of test cases")
  | _ => .error (.exc "value is not a valid list of test cases")

/-- `structparse_pop_obj` with `construct_default=True` for `test_cases`:
an absent key runs the constructor on `None`. -/
def popTestCases (fields : List (String × JValue)) :
    Except PyErr (List TestCaseType) :=
  match jfield fields "test_cases" with
  | none => construct_test_cases JValue.null
  | some v => construct_test_cases v

/-- `ConfTest.parse` (src/testConfig.py:411-486): name defaulted from the
position, namespace (default `"default"`), test cases, duration
(default 0, must be `>= 0`, then `0` is normalized to `3600`),
`privileged_pod` (default false), the non-empty connections list, and
the logs directory (default `"ft-logs"`). -/
def conf_test_parse (idx : ℕ) (v : JValue) : Except PyErr ConfTest :=
  match v with
  | .obj fields => do
    let name ← popStrD fields "name" ("Test " ++ toString (idx + 1))
    let nspace ← popStrD fields "namespace" "default"
    let test_cases ← popTestCases fields
    let duration ← popIntCheck fields "duration" 0 (fun z => 0 ≤ z)
    let duration := if duration = 0 then 3600 else duration
    let privileged_pod ← popBoolD fields "privileged_pod" false
    let connections ← popObjList fields "connections"
      (fun i x => conf_connection_parse i name nspace x) false
    let logs ← popStrD fields "logs" "ft-logs"
    guardKeys (keysOk fields ["name", "namespace", "test_cases", "duration",
        "privileged_pod", "connections", "logs"])
      (.ok { name := name, nspace := nspace, test_cases := test_cases,
             duration := duration, privileged_pod := privileged_pod,
             connections := connections, logs := logs })
  | _ => .error .typeError

/-- `ConfConfig.parse` (src/testConfig.py:542-576): the non-empty `tft`
list and the two optional kubeconfig paths; `kubeconfig_infra` requires
`kubeconfig`. -/
def conf_config_parse (v : JValue) : Except PyErr ConfConfig :=
  match v with
  | .obj fields => do
    let tft ← popObjList fields "tft" conf_test_parse false
    let kubeconfig ← popStrOpt fields "kubeconfig"
    let kubeconfig_infra ← popStrOpt fields "kubeconfig_infra"
    guardKeys (keysOk fields ["tft", "kubeconfig", "kubeconfig_infra"])
      (if kubeconfig_infra.isSome && !kubeconfig.isSome then
        .error (.exc "missing parameter when kubeconfig_infra is given")
      else
        .ok { tft := tft, kubeconfig := kubeconfig,
              kubeconfig_infra := kubeconfig_infra })
  | _ => .error .typeError

/-! #### Serialization -/

/-- An optional string serialized as the value or `null`
(`ConfConfig.serialize` emits `None` values explicitly). -/
def jOptStr : Option String → JValue
  | some s => .str s
  | none => .null

/-- `ConfNodeServer.serialize` (src/testConfig.py:82-92, 220-224):
name, `sriov`, `default_network`, the optional fields only when set
(`dict_add_optional`), and `persistent`. -/
def conf_node_server_serialize (n : ConfNodeServer) : JValue :=
  .obj ([("name", JValue.str n.name), ("sriov", JValue.bool n.sriov),
         ("default_network", JValue.str n.default_network)]
    ++ (match n.privileged_pod with
        | some b => [("privileged_pod", JValue.bool b)]
        | none => [])
    ++ (match n.args with
        | some l => [("args", JValue.arr (l.map JValue.str))]
        | none => [])
    ++ [("persistent", JValue.bool n.persistent)])

/-- `ConfNodeClient` serialization (`ConfNodeBase.serialize`,
src/testConfig.py:82-92). -/
def conf_node_client_serialize (n : ConfNodeClient) : JValue :=
  .obj ([("name", JValue.str n.name), ("sriov", JValue.bool n.sriov),
         ("default_network", JValue.str n.default_network)]
    ++ (match n.privileged_pod with
        | some b => [("privileged_pod", JValue.bool b)]
        | none => [])
    ++ (match n.args with
        | some l => [("args", JValue.arr (l.map JValue.str))]
        | none => []))

/-- `StructParseBaseNamed.serialize` for a plugin reference: the name. -/
def conf_plugin_serialize (p : ConfPlugin) : JValue :=
  .obj [("name", JValue.str p.name)]

/-- `ConfConnection.serialize` (src/testConfig.py:267-281). -/
def conf_connection_serialize (c : ConfConnection) : JValue :=
  .obj ([("name", JValue.str c.name),
         ("type", JValue.str (testTypeName c.test_type)),
         ("instances", JValue.intg c.instances),
         ("server", JValue.arr (c.server.map conf_node_server_serialize)),
         ("client", JValue.arr (c.client.map conf_node_client_serialize)),
         ("plugins", JValue.arr (c.plugins.map conf_plugin_serialize))]
    ++ (match c.secondary_network_nad with
        | some s => [("secondary_network_nad", JValue.str s)]
        | none => [])
    ++ (match c.resource_name with
        | some s => [("resource_name", JValue.str s)]
        | none => []))

/-- `ConfTest.serialize` (src/testConfig.py:400-409). -/
def conf_test_serialize (t : ConfTest) : JValue :=
  .obj [("name", JValue.str t.name),
        ("namespace", JValue.str t.nspace),
        ("test_cases", JValue.arr (t.test_cases.map (fun x => JValue.str (testCaseName x)))),
        ("duration", JValue.intg t.duration),
        ("privileged_pod", JValue.bool t.privileged_pod),
        ("connections", JValue.arr (t.connections.map conf_connection_serialize)),
        ("logs", JValue.str t.logs)]

/-- `ConfConfig.serialize` (src/testConfig.py:535-540): unlike the other
nodes it emits the optional kubeconfig values even when unset. -/
def conf_config_serialize (c : ConfConfig) : JValue :=
  .obj [("tft", JValue.arr (c.tft.map conf_test_serialize)),
        ("kubeconfig", jOptStr c.kubeconfig),
        ("kubeconfig_infra", jOptStr c.kubeconfig_infra)]

/-! #### ConfigDescriptor._post_check -/

/-- A placeholder for out-of-range indexing (Python would raise; the
embedded checks below only index within bounds, as the source does). -/
def defaultConfTest : ConfTest :=
  { name := "", nspace := "", test_cases := [], duration := 0,
    privileged_pod := false, connections := [], logs := "" }

/-- `self.tc.config.tft[i]` for an in-range `i`. -/
def tftAt (cfg : ConfConfig) (i : ℤ) : ConfTest :=
  cfg.tft.getD i.toNat defaultConfTest

/-- `ConfigDescriptor._post_check` (src/testConfig.py:858-878): the exact
cascade of range checks (including the source's `"out or range"`
message typo). -/
def post_check (cfg : ConfConfig) (tft_idx test_cases_idx connections_idx : ℤ) :
    Except PyErr Unit :=
  if tft_idx < -1 ∨ (cfg.tft.length : ℤ) ≤ tft_idx then
    .error (.exc "tft_idx out of range")
  else if test_cases_idx < -1 then
    .error (.exc "test_cases_idx out of range")
  else if 0 ≤ test_cases_idx ∧ tft_idx < 0 then
    .error (.exc "test_cases_idx requires tft_idx")
  else if 0 ≤ test_cases_idx ∧
      ((tftAt cfg tft_idx).test_cases.length : ℤ) ≤ test_cases_idx then
    .error (.exc "test_cases_idx out or range")
  else if connections_idx < -1 then
    .error (.exc "connections_idx out of range")
  else if 0 ≤ connections_idx ∧ tft_idx < 0 then
    .error (.exc "connections_idx requires tft_idx")
  else if 0 ≤ connections_idx ∧
      ((tftAt cfg tft_idx).connections.length : ℤ) ≤ connections_idx then
    .error (.exc "connections_idx out or range")
  else .ok ()


/-! #### Concrete sample documents and their parses -/

/-- A minimal server node document. -/
def sampleServerDoc : JValue := .obj [("name", JValue.str "server-node")]

/-- A minimal client node document. -/
def sampleClientDoc : JValue := .obj [("name", JValue.str "client-node")]

/-- A minimal connection document: one server, one client. -/
def sampleConnDoc : JValue :=
  .obj [("server", JValue.arr [sampleServerDoc]),
        ("client", JValue.arr [sampleClientDoc])]

/-- A minimal test-group document (no `duration`, no `test_cases`). -/
def sampleTestDoc : JValue :=
  .obj [("connections", JValue.arr [sampleConnDoc])]

/-- A minimal whole-config document. -/
def sampleDoc : JValue :=
  .obj [("tft", JValue.arr [sampleTestDoc])]

/-- The parsed server node of `sampleServerDoc`. -/
def sampleServer : ConfNodeServer :=
  { name := "server-node", sriov := false, pod_type := PodType.NORMAL,
    default_network := "default/default", privileged_pod := none,
    args := none, persistent := false }

/-- The parsed client node of `sampleClientDoc`. -/
def sampleClient : ConfNodeClient :=
  { name := "client-node", sriov := false, pod_type := PodType.NORMAL,
    default_network := "default/default", privileged_pod := none,
    args := none }

/-- The parsed connection of `sampleConnDoc`. -/
def sampleConn : ConfConnection :=
  { name := "Connection Test 1/1", test_type := TestType.IPERF_TCP,
    instances := 1, server := [sampleServer], client := [sampleClient],
    plugins := [], secondary_network_nad := none, resource_name := none,
    nspace := "default" }

/-- The parsed test group of `sampleTestDoc`. -/
def sampleTest : ConfTest :=
  { name := "Test 1", nspace := "default", test_cases := allTestCases,
    duration := 3600, privileged_pod := false, connections := [sampleConn],
    logs := "ft-logs" }

/-- The parsed configuration of `sampleDoc`. -/
def sampleConfig : ConfConfig :=
  { tft := [sampleTest], kubeconfig := none, kubeconfig_infra := none }

/-! #### The failure conditions of claim C4, as stated -/

/-- The index-tuple failure conditions exactly as the spec/claim states
them (a definition following the claim wording, to be compared with the
embedded `post_check`): connection index set while the test-group index
is unset; any index `< -1`; a set index at or beyond the size of the
collection it refers to. -/
def c4_claimed_fail (cfg : ConfConfig) (i j k : ℤ) : Prop :=
  (0 ≤ k ∧ i < 0) ∨ i < -1 ∨ j < -1 ∨ k < -1 ∨
  (0 ≤ i ∧ (cfg.tft.length : ℤ) ≤ i) ∨
  (0 ≤ i ∧ 0 ≤ j ∧ ((tftAt cfg i).test_cases.length : ℤ) ≤ j) ∨
  (0 ≤ i ∧ 0 ≤ k ∧ ((tftAt cfg i).connections.length : ℤ) ≤ k)

instance (cfg : ConfConfig) (i j k : ℤ) : Decidable (c4_claimed_fail cfg i j k) := by
  unfold c4_claimed_fail
  infer_instance


/-- A test-group document with an explicit positive duration. -/
def durTestDoc5 : JValue :=
  .obj [("duration", JValue.intg 5), ("connections", JValue.arr [sampleConnDoc])]

/-- The parse of `durTestDoc5`: everything as in `sampleTest` but the
duration. -/
def sampleTest5 : ConfTest :=
  { sampleTest with duration := 5 }

/-- A test-group document with a negative duration (must be rejected). -/
def durTestDocNeg : JValue :=
  .obj [("duration", JValue.intg (-1)), ("connections", JValue.arr [sampleConnDoc])]

/-- A connection document with an explicitly empty server list. -/
def c7doc : JValue :=
  .obj [("server", JValue.arr []), ("client", JValue.arr [sampleClientDoc])]

/-- What `ConfConnection.parse` makes of `c7doc`: zero servers. -/
def c7conn : ConfConnection :=
  { name := "Connection t/1", test_type := TestType.IPERF_TCP, instances := 1,
    server := [], client := [sampleClient], plugins := [],
    secondary_network_nad := none, resource_name := none, nspace := "default" }

/-- A connection document with two server entries (must be rejected). -/
def c7docTwo : JValue :=
  .obj [("server", JValue.arr [sampleServerDoc, sampleServerDoc]),
        ("client", JValue.arr [sampleClientDoc])]


/-! #### Round-trip invariants

The facts every value produced by the corresponding parser satisfies;
re-parsing a serialized tree only needs these. -/

/-- What `ConfNodeServer.parse` guarantees: a DNS-valid name and the
`pod_type` derived from `sriov`. -/
def nodeS_inv (n : ConfNodeServer) : Prop :=
  validate_dns_name n.name = true ∧
  n.pod_type = (if n.sriov then PodType.SRIOV else PodType.NORMAL)

/-- What `ConfNodeClient.parse` guarantees. -/
def nodeC_inv (n : ConfNodeClient) : Prop :=
  validate_dns_name n.name = true ∧
  n.pod_type = (if n.sriov then PodType.SRIOV else PodType.NORMAL)

/-- What `ConfPlugin.parse` guarantees: the name resolves to the stored
registry entry. -/
def plugin_inv (p : ConfPlugin) : Prop :=
  pluginGetByName p.name = some p.plugin

/-- What `ConfConnection.parse` guarantees. -/
def conn_inv (c : ConfConnection) : Prop :=
  0 < c.instances ∧ c.server.length ≤ 1 ∧ c.client.length ≤ 1 ∧
  (∀ s ∈ c.server, nodeS_inv s ∧ conf_node_args_ok s.args c.test_type = Except.ok ()) ∧
  (∀ cl ∈ c.client, nodeC_inv cl ∧ conf_node_args_ok cl.args c.test_type = Except.ok ()) ∧
  (∀ p ∈ c.plugins, plugin_inv p)

/-- What `ConfTest.parse` guarantees. -/
def test_inv (t : ConfTest) : Prop :=
  0 < t.duration ∧ t.connections ≠ [] ∧
  (∀ c ∈ t.connections, conn_inv c ∧ c.nspace = t.nspace)

/-- What `ConfConfig.parse` guarantees. -/
def config_inv (cfg : ConfConfig) : Prop :=
  cfg.tft ≠ [] ∧ (∀ t ∈ cfg.tft, test_inv t) ∧
  (cfg.kubeconfig_infra.isSome → cfg.kubeconfig.isSome)

/-! ## Theorems -/

/-- **C1** counterexample.  The claim says a mapping whose protocol-specific
parsing fails (here: TCP, all keys missing) yields `Bitrate.NA` and that
`calculate_gbps` never raises; in fact the code raises a wrapped
`Exception` and does not return NA. -/
theorem C1_counterexample :
    calculate_gbps TestType.IPERF_TCP (JValue.obj []) ≠ Except.ok Bitrate.NA ∧
    calculate_gbps TestType.IPERF_TCP (JValue.obj []) =
      Except.error (PyErr.exc "calculate_gbps_iperf_tcp(): failed to parse iperf test results") := by
  have he : calculate_gbps TestType.IPERF_TCP (JValue.obj []) =
      Except.error (PyErr.exc "calculate_gbps_iperf_tcp(): failed to parse iperf test results") := rfl
  refine ⟨?_, he⟩
  rw [he]
  intro h
  exact Except.noConfusion h

/-- **C1** (amended).  An explicit `error` key yields `Bitrate.NA`; but a
mapping whose protocol-specific parsing fails (TCP: the `end.sum_sent` /
`end.sum_received` lookups fail; UDP: the `end.sum` lookup fails) makes
`calculate_gbps` raise an exception instead of returning `Bitrate.NA`. -/
theorem C1_amended (tt : TestType) (m : JValue) :
    (m.hasKey "error" = true → calculate_gbps tt m = Except.ok Bitrate.NA) ∧
    (m.hasKey "error" = false → tt = TestType.IPERF_TCP →
      (tcp_sum_lookups m).isOk = false →
      ∃ e, calculate_gbps tt m = Except.error e) ∧
    (m.hasKey "error" = false → tt ≠ TestType.IPERF_TCP →
      (udp_sum_lookup m).isOk = false →
      ∃ e, calculate_gbps tt m = Except.error e) := by
  refine ⟨fun h => by simp [calculate_gbps, h], fun h htt hfail => ?_, fun h htt hfail => ?_⟩
  · subst htt
    cases hs : tcp_sum_lookups m with
    | ok v => rw [hs] at hfail; simp [Except.isOk, Except.toBool] at hfail
    | error e =>
      have hcalc : calculate_gbps TestType.IPERF_TCP m = calculate_gbps_tcp m := by
        simp [calculate_gbps, h]
      rw [hcalc]
      unfold calculate_gbps_tcp
      rw [hs]
      cases e with
      | keyError =>
        exact ⟨PyErr.exc "calculate_gbps_iperf_tcp(): failed to parse iperf test results", rfl⟩
      | typeError => exact ⟨PyErr.typeError, rfl⟩
      | zeroDiv => exact ⟨PyErr.zeroDiv, rfl⟩
      | exc msg => exact ⟨PyErr.exc msg, rfl⟩
  · cases hs : udp_sum_lookup m with
    | ok v => rw [hs] at hfail; simp [Except.isOk, Except.toBool] at hfail
    | error e =>
      refine ⟨e, ?_⟩
      simp [calculate_gbps, h, htt, calculate_gbps_udp, hs, bind, Except.bind]

/-- **C1** witness: the amended theorem applied at concrete inputs —
an `error` mapping returns NA; the empty mapping makes both the TCP and
the UDP path raise. -/
theorem C1_witness :
    calculate_gbps TestType.IPERF_TCP (JValue.obj [("error", JValue.str "boom")]) =
      Except.ok Bitrate.NA ∧
    (∃ e, calculate_gbps TestType.IPERF_TCP (JValue.obj []) = Except.error e) ∧
    (∃ e, calculate_gbps TestType.IPERF_UDP (JValue.obj []) = Except.error e) :=
  ⟨(C1_amended TestType.IPERF_TCP (JValue.obj [("error", JValue.str "boom")])).1 rfl,
   (C1_amended TestType.IPERF_TCP (JValue.obj [])).2.1 rfl rfl rfl,
   (C1_amended TestType.IPERF_UDP (JValue.obj [])).2.2 rfl (by decide) rfl⟩

/-- **C6** (confirmed).  A TCP result mapping that parses successfully (no
`error` key; the `end.sum_sent` / `end.sum_received` lookups and their
`bits_per_second` numeric reads succeed) yields the bitrates
`bits_per_second / 1e9` rounded to 5 significant digits, tx from
`sum_sent` and rx from `sum_received`. -/
theorem C6_tcp_bitrate (m ss sr bs br : JValue) (s r : ℚ)
    (h0 : m.hasKey "error" = false)
    (h1 : tcp_sum_lookups m = Except.ok (ss, sr))
    (h2 : ss.pyGet "bits_per_second" = Except.ok bs)
    (h3 : bs.asNum = Except.ok s)
    (h4 : sr.pyGet "bits_per_second" = Except.ok br)
    (h5 : br.asNum = Except.ok r) :
    calculate_gbps TestType.IPERF_TCP m =
      Except.ok { tx := some (sigRound5 (s / 1000000000))
                  rx := some (sigRound5 (r / 1000000000)) } := by
  simp [calculate_gbps, h0, calculate_gbps_tcp, h1, h2, h3, h4, h5, bind, Except.bind,
    Functor.map, Except.map, pure, Except.pure]

/-- **C6** witness: a concrete well-formed TCP result; 12345000000000
bits/s gives 12345 Gbps for tx and 25000000000 bits/s gives 25 Gbps
for rx (both exact at 5 significant digits). -/
theorem C6_witness :
    calculate_gbps TestType.IPERF_TCP
      (JValue.obj [("end", JValue.obj
        [("sum_sent", JValue.obj [("bits_per_second", JValue.num 12345000000000)]),
         ("sum_received", JValue.obj [("bits_per_second", JValue.num 25000000000)])])]) =
      Except.ok { tx := some 12345, rx := some 25 } := by
  have h := C6_tcp_bitrate
    (JValue.obj [("end", JValue.obj
        [("sum_sent", JValue.obj [("bits_per_second", JValue.num 12345000000000)]),
         ("sum_received", JValue.obj [("bits_per_second", JValue.num 25000000000)])])])
    (JValue.obj [("bits_per_second", JValue.num 12345000000000)])
    (JValue.obj [("bits_per_second", JValue.num 25000000000)])
    (JValue.num 12345000000000) (JValue.num 25000000000)
    12345000000000 25000000000 rfl rfl rfl rfl rfl rfl
  rw [h]
  have hns : Nat.log 10 12345 = 4 := Nat.log_eq_of_pow_le_of_lt_pow (by norm_num) (by norm_num)
  have hnr : Nat.log 10 25 = 1 := Nat.log_eq_of_pow_le_of_lt_pow (by norm_num) (by norm_num)
  have hqs : |(12345000000000 / 1000000000 : ℚ)| = ((12345 : ℕ) : ℚ) := by norm_num
  have hqr : |(25000000000 / 1000000000 : ℚ)| = ((25 : ℕ) : ℚ) := by norm_num
  have his : Int.log 10 |(12345000000000 / 1000000000 : ℚ)| = 4 := by
    rw [hqs, Int.log_natCast, hns]; norm_num
  have hir : Int.log 10 |(25000000000 / 1000000000 : ℚ)| = 1 := by
    rw [hqr, Int.log_natCast, hnr]; norm_num
  have hs : sigRound5 (12345000000000 / 1000000000 : ℚ) = 12345 := by
    norm_num [sigRound5, roundHalfEven, his, hns, Int.fract]
  have hr : sigRound5 (25000000000 / 1000000000 : ℚ) = 25 := by
    norm_num [sigRound5, roundHalfEven, hir, hnr, Int.fract]
  rw [hs, hr]

/-- **C10** counterexample.  The claim quantifies over every UDP mapping
without an `error` key; the empty mapping has no `error` key, yet the
code raises `KeyError` instead of returning a duplicated tx/rx pair. -/
theorem C10_counterexample :
    (JValue.obj []).hasKey "error" = false ∧
    calculate_gbps TestType.IPERF_UDP (JValue.obj []) = Except.error PyErr.keyError := by
  exact ⟨rfl, rfl⟩

/-- **C10** (amended).  For every UDP result mapping without an `error` key
whose `end.sum.bits_per_second` read succeeds with a number `q`, the rx
value equals the tx value, both `sigRound5 (q / 1e9)` — the sender value
is duplicated, rx is never reported as NA. -/
theorem C10_udp_duplicates_tx (m sd bs : JValue) (q : ℚ)
    (h0 : m.hasKey "error" = false)
    (h1 : udp_sum_lookup m = Except.ok sd)
    (h2 : sd.pyGet "bits_per_second" = Except.ok bs)
    (h3 : bs.asNum = Except.ok q) :
    calculate_gbps TestType.IPERF_UDP m =
      Except.ok { tx := some (sigRound5 (q / 1000000000))
                  rx := some (sigRound5 (q / 1000000000)) } := by
  simp [calculate_gbps, h0, calculate_gbps_udp, h1, h2, h3, bind, Except.bind,
    Functor.map, Except.map, pure, Except.pure]

/-- **C10** witness: a concrete UDP result; both fields are 25 Gbps. -/
theorem C10_witness :
    calculate_gbps TestType.IPERF_UDP
      (JValue.obj [("end", JValue.obj
        [("sum", JValue.obj [("bits_per_second", JValue.num 25000000000)])])]) =
      Except.ok { tx := some 25, rx := some 25 } := by
  have h := C10_udp_duplicates_tx
    (JValue.obj [("end", JValue.obj
        [("sum", JValue.obj [("bits_per_second", JValue.num 25000000000)])])])
    (JValue.obj [("bits_per_second", JValue.num 25000000000)])
    (JValue.num 25000000000) 25000000000 rfl rfl rfl rfl
  rw [h]
  have hn : Nat.log 10 25 = 1 := Nat.log_eq_of_pow_le_of_lt_pow (by norm_num) (by norm_num)
  have habs : |(25000000000 / 1000000000 : ℚ)| = ((25 : ℕ) : ℚ) := by norm_num
  have hi : Int.log 10 |(25000000000 / 1000000000 : ℚ)| = 1 := by
    rw [habs, Int.log_natCast, hn]; norm_num
  have hq : sigRound5 (25000000000 / 1000000000 : ℚ) = 25 := by
    norm_num [sigRound5, roundHalfEven, hi, hn, Int.fract]
  rw [hq]

/-! ### The measure_power polling loop (C2, C9) -/

theorem loopIter_iteration (env : PowerEnv) :
    ∀ (k n : ℕ) (st : PowerState),
      (loopIter env n k st).iteration = st.iteration + k := by
  intro k
  induction k with
  | zero => intro n st; simp [loopIter]
  | succ m ih =>
    intro n st
    rw [loopIter, ih]
    have hb : (powerLoopBody env n st).iteration = st.iteration + 1 := by
      unfold powerLoopBody
      dsimp only
      split
      · split <;> simp
      · split
        · split <;> simp
        · simp
    rw [hb]
    omega

theorem powerLoop_char (env : PowerEnv) (s : ℕ)
    (hflag : ∀ n, env.flagAt n = decide (s ≤ n)) :
    ∀ (fuel n : ℕ) (st : PowerState), n ≤ s → s - n < fuel →
      powerLoop env fuel n st =
        some (loopIter env n (s - n) st,
          (List.range' n (s - n)).flatMap
            (fun m => [PowerEv.check false, PowerEv.cmd m, PowerEv.sleep (1/5)]) ++
          [PowerEv.check true]) := by
  intro fuel
  induction fuel with
  | zero => intro n st _ h; omega
  | succ f ih =>
    intro n st hns hf
    by_cases hn : s ≤ n
    · have hsn : n = s := le_antisymm hns hn
      subst hsn
      have : env.flagAt n = true := by rw [hflag]; simp
      simp [powerLoop, this, loopIter]
    · have hlt : n < s := lt_of_not_ge hn
      have hfl : env.flagAt n = false := by rw [hflag]; simp; omega
      have hrec := ih (n + 1) (powerLoopBody env n st) (by omega) (by omega)
      have hk : s - n = (s - (n + 1)) + 1 := by omega
      rw [powerLoop, hfl]
      simp only [Bool.false_eq_true, if_false, hrec, hk, loopIter, List.range'_succ,
        List.flatMap_cons]
      simp

/-- Auxiliary: the looping part of the trace has length `3 * s`. -/
theorem loopTrace_flatMap_length (s : ℕ) :
    ((List.range s).flatMap
      (fun n => [PowerEv.check false, PowerEv.cmd n, PowerEv.sleep (1/5)])).length =
    3 * s := by
  induction s with
  | zero => simp
  | succ m ih => rw [List.range_succ, List.flatMap_append, List.length_append, ih]; simp; omega

/-- **C2** (confirmed).  If the client-finished flag is set exactly once —
unset for the first `s` checks and set from then on — and the loop is
observed long enough (`s < fuel`), then: the polling loop terminates at
its next check of the flag, having run exactly `s` iterations; only the
commands of iterations `0, …, s-1` are ever started, none at or after the
check that observes the flag (the trace after the `s` iterations is just
the final set check); between the last check that read the flag unset and
termination there is exactly one command and one fixed 0.2-second sleep
(one polling interval); and the single aggregate record is emitted only
after the loop has ended. -/
theorem C2_probe_observes_flag (env : PowerEnv) (fuel s : ℕ)
    (hflag : ∀ n, env.flagAt n = decide (s ≤ n)) (hfuel : s < fuel) :
    ∃ st,
      powerLoop env fuel 0 initPowerState = some (st, loopTrace s) ∧
      st.iteration = s ∧
      (∀ n, PowerEv.cmd n ∈ loopTrace s → n < s) ∧
      (loopTrace s).drop (3 * s) = [PowerEv.check true] ∧
      (1 ≤ s → (loopTrace s).drop (3 * (s - 1)) =
        [PowerEv.check false, PowerEv.cmd (s - 1), PowerEv.sleep (1/5),
         PowerEv.check true]) ∧
      (1 ≤ s → thread_action env fuel =
        some (Except.ok (powerOutput st), loopTrace s ++ [PowerEv.emit])) := by
  have hchar := powerLoop_char env s hflag fuel 0 initPowerState (Nat.zero_le s) (by omega)
  have hiter : (loopIter env 0 (s - 0) initPowerState).iteration = s := by
    rw [loopIter_iteration]
    simp [initPowerState]
  refine ⟨loopIter env 0 (s - 0) initPowerState, ?_, hiter, ?_, ?_, ?_, ?_⟩
  · rw [hchar]
    simp [loopTrace, List.range_eq_range']
  · intro n hn
    simp only [loopTrace, List.mem_append, List.mem_flatMap, List.mem_range,
      List.mem_cons, List.not_mem_nil] at hn
    rcases hn with ⟨m, hm, hin⟩ | h
    · simp at hin
      omega
    · simp at h
  · rw [loopTrace, ← loopTrace_flatMap_length s]
    exact List.drop_left _ _
  · intro hs
    have hsplit : List.range s = List.range (s - 1) ++ [s - 1] := by
      have : s = (s - 1) + 1 := by omega
      rw [this, List.range_succ]
      simp
    rw [loopTrace, hsplit, List.flatMap_append, List.append_assoc,
      ← loopTrace_flatMap_length (s - 1)]
    rw [List.drop_left]
    simp
  · intro hs
    rw [thread_action, hchar]
    have hz : (loopIter env 0 (s - 0) initPowerState).iteration ≠ 0 := by omega
    simp only [hz, if_false]
    rw [loopTrace]
    simp [List.range_eq_range']

/-- **C2** witness: a flag set exactly once, between the first and second
check; the loop runs exactly one iteration and stops at the second
check. -/
theorem C2_witness :
    ∃ st,
      powerLoop
        ⟨fun n => decide (1 ≤ n),
         fun _ => ⟨true, "Instantaneous power reading: 100 Watts"⟩⟩
        2 0 initPowerState = some (st, loopTrace 1) ∧
      st.iteration = 1 ∧
      (∀ n, PowerEv.cmd n ∈ loopTrace 1 → n < 1) ∧
      (loopTrace 1).drop (3 * 1) = [PowerEv.check true] ∧
      (1 ≤ 1 → (loopTrace 1).drop (3 * (1 - 1)) =
        [PowerEv.check false, PowerEv.cmd 0, PowerEv.sleep (1/5),
         PowerEv.check true]) ∧
      (1 ≤ 1 → thread_action
        ⟨fun n => decide (1 ≤ n),
         fun _ => ⟨true, "Instantaneous power reading: 100 Watts"⟩⟩ 2 =
        some (Except.ok (powerOutput st), loopTrace 1 ++ [PowerEv.emit])) := by
  exact C2_probe_observes_flag
    ⟨fun n => decide (1 ≤ n),
     fun _ => ⟨true, "Instantaneous power reading: 100 Watts"⟩⟩ 2 1
    (fun n => rfl) (by decide)

/-- **C9** (confirmed).  If the client-finished flag is already set when
the thread action reaches its polling loop, the loop body runs zero
times and the averaging step divides by an iteration count of zero: the
action raises `ZeroDivisionError` instead of returning a record.
Conversely, a `PluginOutput` is returned only when the loop ran at least
one iteration. -/
theorem C9_division_by_zero (env : PowerEnv) (fuel : ℕ) :
    (env.flagAt 0 = true → 1 ≤ fuel →
      thread_action env fuel =
        some (Except.error PyErr.zeroDiv, [PowerEv.check true])) ∧
    (∀ out evs, thread_action env fuel = some (Except.ok out, evs) →
      ∃ st evs0, powerLoop env fuel 0 initPowerState = some (st, evs0) ∧
        1 ≤ st.iteration) := by
  constructor
  · intro h hf
    obtain ⟨f, rfl⟩ : ∃ f, fuel = f + 1 := ⟨fuel - 1, by omega⟩
    simp [thread_action, powerLoop, h, initPowerState]
  · intro out evs h
    rw [thread_action] at h
    cases hp : powerLoop env fuel 0 initPowerState with
    | none => rw [hp] at h; exact absurd h (by simp)
    | some p =>
      obtain ⟨st, evs0⟩ := p
      rw [hp] at h
      by_cases hz : st.iteration = 0
      · simp [hz] at h
      · exact ⟨st, evs0, rfl, by omega⟩

/-- **C9** witness: with the flag already set at the first check the
action raises the division error; with one iteration before the flag is
seen, a record is returned and the loop ran at least once. -/
theorem C9_witness :
    thread_action ⟨fun _ => true, fun _ => ⟨true, ""⟩⟩ 1 =
      some (Except.error PyErr.zeroDiv, [PowerEv.check true]) ∧
    (∃ st evs0,
      powerLoop
        ⟨fun n => decide (1 ≤ n),
         fun _ => ⟨true, "Instantaneous power reading: 100 Watts"⟩⟩
        2 0 initPowerState = some (st, evs0) ∧ 1 ≤ st.iteration) :=
  ⟨(C9_division_by_zero ⟨fun _ => true, fun _ => ⟨true, ""⟩⟩ 1).1 rfl (by decide),
   (C9_division_by_zero
      ⟨fun n => decide (1 ≤ n),
       fun _ => ⟨true, "Instantaneous power reading: 100 Watts"⟩⟩ 2).2
     (powerOutput ⟨true, none, 100, 1, none⟩)
     ([PowerEv.check false, PowerEv.cmd 0, PowerEv.sleep (1/5),
       PowerEv.check true] ++ [PowerEv.emit]) (by rfl)⟩

/-! ### ConfigDescriptor index checks (C4, C5) -/

/-- **C4** counterexample.  The tuple `(-1, 0, -1)` on a parsed one-test
config violates none of the claim's listed conditions (the connection
index is unset, no index is `< -1`, no set index is out of range of a
referenced collection), yet `_post_check` fails: a set test-case index
also requires the test-group index, a condition the claim omits. -/
theorem C4_counterexample :
    conf_config_parse sampleDoc = Except.ok sampleConfig ∧
    ¬ c4_claimed_fail sampleConfig (-1) 0 (-1) ∧
    post_check sampleConfig (-1) 0 (-1) =
      Except.error (PyErr.exc "test_cases_idx requires tft_idx") :=
  ⟨rfl, by decide, rfl⟩

/-- **C4** (amended).  Construction succeeds exactly when none of the
claimed conditions holds *and additionally* the test-case index is not
set while the test-group index is unset. -/
theorem C4_amended (cfg : ConfConfig) (i j k : ℤ) :
    post_check cfg i j k = Except.ok () ↔
      ¬ (c4_claimed_fail cfg i j k ∨ (0 ≤ j ∧ i < 0)) := by
  unfold post_check c4_claimed_fail
  constructor
  · intro h
    split_ifs at h with h1 h2 h3 h4 h5 h6 h7
    omega
  · intro h
    split_ifs with g1 g2 g3 g4 g5 g6 g7
    all_goals try rfl
    all_goals exfalso; omega

/-- **C4** witness: on the parsed sample config the fully-set in-range
tuple `(0, 0, 0)` violates no condition and construction succeeds. -/
theorem C4_witness :
    post_check sampleConfig 0 0 0 = Except.ok () :=
  (C4_amended sampleConfig 0 0 0).mpr (by decide)

/-- **C5** counterexample.  The claimed invariant says a set connection
index forces a set test-case index; but `_post_check` accepts
`(tft, test_cases, connections) = (0, -1, 0)` on the parsed sample
config: the connection index only requires the test-group index. -/
theorem C5_counterexample :
    ¬ (∀ (cfg : ConfConfig) (i j k : ℤ),
        post_check cfg i j k = Except.ok () →
        (0 ≤ j → 0 ≤ i) ∧ (0 ≤ k → 0 ≤ i ∧ 0 ≤ j)) := by
  intro h
  have h2 := (h sampleConfig 0 (-1) 0 (by rfl)).2 (le_refl 0)
  exact absurd h2.2 (by decide)

/-- **C5** (amended).  Every constructible descriptor satisfies: a set
test-case index requires a set test-group index, and a set connection
index requires a set test-group index (but not a set test-case
index). -/
theorem C5_amended (cfg : ConfConfig) (i j k : ℤ)
    (h : post_check cfg i j k = Except.ok ()) :
    (0 ≤ j → 0 ≤ i) ∧ (0 ≤ k → 0 ≤ i) := by
  unfold post_check at h
  split_ifs at h with h1 h2 h3 h4 h5 h6 h7
  omega

/-- **C5** witness: the amended invariant at the fully-set tuple on the
sample config. -/
theorem C5_witness :
    ((0 : ℤ) ≤ 0 → (0 : ℤ) ≤ 0) ∧ ((0 : ℤ) ≤ 0 → (0 : ℤ) ≤ 0) :=
  C5_amended sampleConfig 0 0 0 (by rfl)

/-! ### Duration normalization (C3) and the one-server restriction (C7) -/

/-- Inversion of a successful `Except` bind. -/
theorem except_bind_eq_ok {ε α β : Type} (x : Except ε α) (f : α → Except ε β)
    (b : β) :
    (x >>= f = Except.ok b) ↔ ∃ a, x = Except.ok a ∧ f a = Except.ok b := by
  cases x <;> simp [Bind.bind, Except.bind]

theorem guardKeys_eq_ok {α : Type} (b : Bool) (x : Except PyErr α) (a : α) :
    guardKeys b x = Except.ok a ↔ b = true ∧ x = Except.ok a := by
  cases b <;> simp [guardKeys]

/-- A successful `ConfTest.parse` carries the popped duration through the
`0 → 3600` normalization. -/
theorem conf_test_parse_duration (idx : ℕ) (fields : List (String × JValue))
    (ct : ConfTest)
    (h : conf_test_parse idx (JValue.obj fields) = Except.ok ct) :
    ∃ d : ℤ, popIntCheck fields "duration" 0 (fun z => 0 ≤ z) = Except.ok d ∧
      ct.duration = (if d = 0 then 3600 else d) := by
  simp only [conf_test_parse, except_bind_eq_ok] at h
  obtain ⟨name, hname, ns, hns, tcs, htcs, d, hd, h⟩ := h
  refine ⟨d, hd, ?_⟩
  obtain ⟨pp, hpp, conns, hconns, logs, hlogs, hfinal⟩ := h
  rw [guardKeys_eq_ok] at hfinal
  cases hfinal.2
  rfl

/-- **C3** (confirmed).  In `ConfTest.parse`: an absent `duration` key
(default 0) and an explicit `0` both normalize to `3600`; a positive
value passes through unchanged; a negative value makes parsing fail. -/
theorem C3_duration (idx : ℕ) (fields : List (String × JValue)) (ct : ConfTest) :
    (conf_test_parse idx (JValue.obj fields) = Except.ok ct →
      jfield fields "duration" = none → ct.duration = 3600) ∧
    (conf_test_parse idx (JValue.obj fields) = Except.ok ct →
      jfield fields "duration" = some (JValue.intg 0) → ct.duration = 3600) ∧
    (∀ z : ℤ, conf_test_parse idx (JValue.obj fields) = Except.ok ct →
      jfield fields "duration" = some (JValue.intg z) → 0 < z →
      ct.duration = z) ∧
    (∀ z : ℤ, jfield fields "duration" = some (JValue.intg z) → z < 0 →
      ∀ ct2 : ConfTest, conf_test_parse idx (JValue.obj fields) ≠ Except.ok ct2) := by
  refine ⟨fun h hj => ?_, fun h hj => ?_, fun z h hj hz => ?_, fun z hj hz ct2 h => ?_⟩
  · obtain ⟨d, hd, hdur⟩ := conf_test_parse_duration idx fields ct h
    rw [popIntCheck, hj] at hd
    simp at hd
    rw [hdur, ← hd]
    simp
  · obtain ⟨d, hd, hdur⟩ := conf_test_parse_duration idx fields ct h
    rw [popIntCheck, hj] at hd
    simp at hd
    rw [hdur, ← hd]
    simp
  · obtain ⟨d, hd, hdur⟩ := conf_test_parse_duration idx fields ct h
    simp only [popIntCheck, hj] at hd
    split at hd
    · cases hd
      rw [hdur, if_neg (by omega)]
    · simp at hd
  · obtain ⟨d, hd, hdur⟩ := conf_test_parse_duration idx fields ct2 h
    simp only [popIntCheck, hj] at hd
    split at hd
    · rename_i hcond
      simp at hcond
      omega
    · simp at hd

/-- **C3** witness: the sample test (no `duration` key) parses to 3600;
an explicit 5 stays 5; duration −1 is rejected. -/
theorem C3_witness :
    sampleTest.duration = 3600 ∧
    sampleTest5.duration = 5 ∧
    (conf_test_parse 0 durTestDocNeg).isOk = false := by
  refine ⟨?_, ?_, ?_⟩
  · exact (C3_duration 0 [("connections", JValue.arr [sampleConnDoc])]
      sampleTest).1 (by rfl) rfl
  · exact (C3_duration 0
      [("duration", JValue.intg 5), ("connections", JValue.arr [sampleConnDoc])]
      sampleTest5).2.2.1 5 (by rfl) rfl (by decide)
  · have hne := (C3_duration 0
      [("duration", JValue.intg (-1)), ("connections", JValue.arr [sampleConnDoc])]
      sampleTest).2.2.2 (-1) rfl (by decide)
    cases hp : conf_test_parse 0 durTestDocNeg with
    | ok v => exact absurd hp (hne v)
    | error e => rfl

/-- **C7** (code bug).  `ConfConnection.parse` rejects more than one
server entry (and more than one client entry), but it accepts an empty
server list: the parsed connection has zero servers, violating the
exactly-one invariant that `ConfigDescriptor.get_server` asserts
(`assert len(c.server) == 1`, src/testConfig.py:897). -/
theorem C7_zero_server_accepted :
    conf_connection_parse 0 "t" "default" c7doc = Except.ok c7conn ∧
    c7conn.server.length = 0 ∧
    conf_connection_parse 0 "t" "default" c7docTwo =
      Except.error (PyErr.exc "currently only one server entry is supported") :=
  ⟨by rfl, rfl, by rfl⟩

/-! ### Serialize/parse round trip (C8) -/

theorem testTypeOfName_name (t : TestType) :
    testTypeOfName (testTypeName t) = some t := by
  cases t <;> rfl

theorem testCaseOfName_name (t : TestCaseType) :
    testCaseOfName (testCaseName t) = some t := by
  cases t <;> rfl

theorem strListOfJ_map (l : List String) :
    strListOfJ (l.map JValue.str) = some l := by
  induction l with
  | nil => rfl
  | cons a as ih => simp [strListOfJ, ih]

theorem args_roundtrip (l : List String) :
    construct_args (JValue.arr (l.map JValue.str)) = Except.ok l := by
  simp [construct_args, strListOfJ_map]

theorem testCaseListOfJ_map (l : List TestCaseType) :
    testCaseListOfJ (l.map (fun x => JValue.str (testCaseName x))) = some l := by
  induction l with
  | nil => rfl
  | cons a as ih => simp [testCaseListOfJ, testCaseOfName_name, ih]

theorem node_server_roundtrip (n : ConfNodeServer) (h : nodeS_inv n) :
    conf_node_server_parse (conf_node_server_serialize n) = Except.ok n := by
  obtain ⟨h1, h2⟩ := h
  obtain ⟨name, sriov, pod_type, dn, pp, args, pers⟩ := n
  simp only at h1 h2
  rw [h2]
  cases pp <;> cases args <;>
    simp [conf_node_server_parse, conf_node_server_serialize, jfield,
      popNameChecked, popBoolD, popStrOpt, popStrD, popDefaultNetwork, popBoolOpt,
      popArgs, keysOk, guardKeys, h1, bind, Except.bind, pure, Except.pure, Except.map,
      args_roundtrip, List.lookup]

theorem node_client_roundtrip (n : ConfNodeClient) (h : nodeC_inv n) :
    conf_node_client_parse (conf_node_client_serialize n) = Except.ok n := by
  obtain ⟨h1, h2⟩ := h
  obtain ⟨name, sriov, pod_type, dn, pp, args⟩ := n
  simp only at h1 h2
  rw [h2]
  cases pp <;> cases args <;>
    simp [conf_node_client_parse, conf_node_client_serialize, jfield,
      popNameChecked, popBoolD, popStrOpt, popStrD, popDefaultNetwork, popBoolOpt,
      popArgs, keysOk, guardKeys, h1, bind, Except.bind, pure, Except.pure, Except.map,
      args_roundtrip, List.lookup]

theorem plugin_roundtrip (p : ConfPlugin) (h : plugin_inv p) :
    conf_plugin_parse (conf_plugin_serialize p) = Except.ok p := by
  obtain ⟨name, plug⟩ := p
  simp only [plugin_inv] at h
  simp [conf_plugin_parse, conf_plugin_serialize, jfield, popNameChecked,
    keysOk, guardKeys, h, bind, Except.bind, List.lookup]

theorem parseListIdx_roundtrip {α : Type} (construct : ℕ → JValue → Except PyErr α)
    (ser : α → JValue) :
    ∀ (l : List α), (∀ i x, x ∈ l → construct i (ser x) = Except.ok x) →
      ∀ i, parseListIdx construct i (l.map ser) = Except.ok l := by
  intro l
  induction l with
  | nil => intro _ i; rfl
  | cons a as ih =>
    intro h i
    have ha := h i a (by simp)
    simp [parseListIdx, ha, bind, Except.bind,
      ih (fun j x hx => h j x (by simp [hx])) (i + 1)]

theorem validate_each_server_ok (tt : TestType) :
    ∀ l : List ConfNodeServer, (∀ s ∈ l, conf_node_args_ok s.args tt = Except.ok ()) →
      validate_each_server l tt = Except.ok () := by
  intro l
  induction l with
  | nil => intro _; rfl
  | cons a as ih =>
    intro h
    simp [validate_each_server, h a (by simp), bind, Except.bind,
      ih (fun x hx => h x (by simp [hx]))]

theorem validate_each_client_ok (tt : TestType) :
    ∀ l : List ConfNodeClient, (∀ c ∈ l, conf_node_args_ok c.args tt = Except.ok ()) →
      validate_each_client l tt = Except.ok () := by
  intro l
  induction l with
  | nil => intro _; rfl
  | cons a as ih =>
    intro h
    simp [validate_each_client, h a (by simp), bind, Except.bind,
      ih (fun x hx => h x (by simp [hx]))]

theorem conn_roundtrip (c : ConfConnection) (h : conn_inv c) (idx : ℕ)
    (test_name : String) :
    conf_connection_parse idx test_name c.nspace (conf_connection_serialize c) =
      Except.ok c := by
  obtain ⟨hinst, hsl, hcl, hs, hc, hp⟩ := h
  obtain ⟨name, tt, inst, server, client, plugins, nad, rname, ns⟩ := c
  simp only at hinst hsl hcl hs hc hp ⊢
  have hserver : ∀ (i : ℕ) (x : ConfNodeServer), x ∈ server →
      conf_node_server_parse (conf_node_server_serialize x) = Except.ok x :=
    fun _ x hx => node_server_roundtrip x (hs x hx).1
  have hclient : ∀ (i : ℕ) (x : ConfNodeClient), x ∈ client →
      conf_node_client_parse (conf_node_client_serialize x) = Except.ok x :=
    fun _ x hx => node_client_roundtrip x (hc x hx).1
  have hplug : ∀ (i : ℕ) (x : ConfPlugin), x ∈ plugins →
      conf_plugin_parse (conf_plugin_serialize x) = Except.ok x :=
    fun _ x hx => plugin_roundtrip x (hp x hx)
  have hvs := validate_each_server_ok tt server (fun s hx => (hs s hx).2)
  have hvc := validate_each_client_ok tt client (fun x hx => (hc x hx).2)
  have hps := parseListIdx_roundtrip (fun _ x => conf_node_server_parse x)
    conf_node_server_serialize server hserver
  have hpc := parseListIdx_roundtrip (fun _ x => conf_node_client_parse x)
    conf_node_client_serialize client hclient
  have hpp := parseListIdx_roundtrip (fun _ x => conf_plugin_parse x)
    conf_plugin_serialize plugins hplug
  have hinstd : decide (0 < inst) = true := by simpa using hinst
  have hns : ¬ (server.length > 1) := by omega
  have hnc : ¬ (client.length > 1) := by omega
  cases nad <;> cases rname <;>
    simp [conf_connection_parse, conf_connection_serialize, jfield,
      popStrD, popStrOpt, popConnType, checkHandled, popIntCheck, popObjList,
      keysOk, guardKeys, testTypeOfName_name, testTypeHandled, hps, hpc, hpp,
      conf_connection_validate, hvs, hvc, hinstd, hns, hnc,
      bind, Except.bind, pure, Except.pure, Except.map, List.lookup]

theorem test_roundtrip (t : ConfTest) (h : test_inv t) (idx : ℕ) :
    conf_test_parse idx (conf_test_serialize t) = Except.ok t := by
  obtain ⟨hdur, hne, hconn⟩ := h
  obtain ⟨name, ns, tcs, dur, priv, conns, logs⟩ := t
  simp only at hdur hne hconn ⊢
  have hc : ∀ (i : ℕ) (x : ConfConnection), x ∈ conns →
      conf_connection_parse i name ns (conf_connection_serialize x) = Except.ok x := by
    intro i x hx
    have h2 := (hconn x hx).2
    have h1 := conn_roundtrip x (hconn x hx).1 i name
    rw [h2] at h1
    exact h1
  have hpl := parseListIdx_roundtrip (fun i x => conf_connection_parse i name ns x)
    conf_connection_serialize conns hc
  have hdurd : decide ((0:ℤ) ≤ dur) = true := by simpa using hdur.le
  have hdne : ¬ (dur = 0) := by omega
  have hie : conns.isEmpty = false := by
    cases conns with
    | nil => exact absurd rfl hne
    | cons a as => rfl
  simp [conf_test_parse, conf_test_serialize, jfield, popStrD, popTestCases,
    construct_test_cases, testCaseListOfJ_map, popIntCheck, popBoolD,
    popObjList, keysOk, guardKeys, hpl, hdurd, hdne, hie,
    bind, Except.bind, pure, Except.pure, Except.map, List.lookup]

theorem config_roundtrip (cfg : ConfConfig) (h : config_inv cfg) :
    conf_config_parse (conf_config_serialize cfg) = Except.ok cfg := by
  obtain ⟨hne, hts, hkc⟩ := h
  obtain ⟨tft, kc, kci⟩ := cfg
  simp only at hne hts hkc ⊢
  have ht : ∀ (i : ℕ) (x : ConfTest), x ∈ tft →
      conf_test_parse i (conf_test_serialize x) = Except.ok x :=
    fun i x hx => test_roundtrip x (hts x hx) i
  have hpl := parseListIdx_roundtrip conf_test_parse conf_test_serialize tft ht
  have hie : tft.isEmpty = false := by
    cases tft with
    | nil => exact absurd rfl hne
    | cons a as => rfl
  cases kc <;> cases kci <;>
    simp_all [conf_config_parse, conf_config_serialize, jfield, jOptStr,
      popStrOpt, popObjList, keysOk, guardKeys, hpl, hie,
      bind, Except.bind, pure, Except.pure, Except.map, List.lookup]

theorem popNameChecked_ok (fields : List (String × JValue)) (check : String → Bool)
    (s : String) (h : popNameChecked fields check = Except.ok s) :
    check s = true := by
  unfold popNameChecked at h
  cases hj : jfield fields "name" with
  | none => rw [hj] at h; simp at h
  | some v =>
    rw [hj] at h
    cases v <;> simp at h
    split at h
    · cases h; assumption
    · simp at h

theorem popIntCheck_ok_check (fields : List (String × JValue)) (k : String)
    (d : ℤ) (check : ℤ → Bool) (z : ℤ)
    (h : popIntCheck fields k d check = Except.ok z) : check z = true := by
  cases hj : jfield fields k with
  | none =>
    simp only [popIntCheck, hj] at h
    split at h
    · cases h; assumption
    · simp at h
  | some v =>
    cases v with
    | intg w =>
      simp only [popIntCheck, hj] at h
      split at h
      · cases h; assumption
      · simp at h
    | null => simp [popIntCheck, hj] at h
    | bool b => simp [popIntCheck, hj] at h
    | num q => simp [popIntCheck, hj] at h
    | str s => simp [popIntCheck, hj] at h
    | arr xs => simp [popIntCheck, hj] at h
    | obj fs => simp [popIntCheck, hj] at h

theorem parseListIdx_mem {α : Type} (construct : ℕ → JValue → Except PyErr α) :
    ∀ (xs : List JValue) (i : ℕ) (l : List α),
      parseListIdx construct i xs = Except.ok l →
      ∀ a ∈ l, ∃ j v, construct j v = Except.ok a := by
  intro xs
  induction xs with
  | nil =>
    intro i l h a ha
    simp only [parseListIdx] at h
    cases h
    simp at ha
  | cons x rest ih =>
    intro i l h a ha
    simp only [parseListIdx, except_bind_eq_ok] at h
    obtain ⟨b, hb, bs, hbs, hl⟩ := h
    cases hl
    rcases List.mem_cons.mp ha with rfl | hmem
    · exact ⟨i, x, hb⟩
    · exact ih (i + 1) bs hbs a hmem

theorem popObjList_ok {α : Type} (fields : List (String × JValue)) (k : String)
    (construct : ℕ → JValue → Except PyErr α) (ae : Bool) (l : List α)
    (h : popObjList fields k construct ae = Except.ok l) :
    (∀ a ∈ l, ∃ j v, construct j v = Except.ok a) ∧ (ae = false → l ≠ []) := by
  cases hj : jfield fields k with
  | none =>
    simp only [popObjList, hj] at h
    split at h
    · rename_i hae
      cases h
      exact ⟨by simp, fun hfalse => by rw [hfalse] at hae; cases hae⟩
    · simp at h
  | some v =>
    cases v with
    | arr xs =>
      simp only [popObjList, hj, except_bind_eq_ok] at h
      obtain ⟨l0, hl0, hif⟩ := h
      split at hif
      · simp at hif
      · rename_i hcond
        cases hif
        refine ⟨parseListIdx_mem construct xs 0 l hl0, fun hae => ?_⟩
        rw [hae] at hcond
        simp at hcond
        intro hnil
        rw [hnil] at hcond
        simp at hcond
    | null => simp [popObjList, hj] at h
    | bool b => simp [popObjList, hj] at h
    | num q => simp [popObjList, hj] at h
    | intg w => simp [popObjList, hj] at h
    | str s => simp [popObjList, hj] at h
    | obj fs => simp [popObjList, hj] at h

theorem validate_each_server_inv (tt : TestType) :
    ∀ (l : List ConfNodeServer) (u : Unit),
      validate_each_server l tt = Except.ok u →
      ∀ s ∈ l, conf_node_args_ok s.args tt = Except.ok () := by
  intro l
  induction l with
  | nil => intro u _ s hs; simp at hs
  | cons a as ih =>
    intro u h s hs
    simp only [validate_each_server, except_bind_eq_ok] at h
    obtain ⟨b, hb, hrest⟩ := h
    rcases List.mem_cons.mp hs with rfl | hmem
    · cases b; exact hb
    · exact ih () (by cases u; exact hrest) s hmem

theorem validate_each_client_inv (tt : TestType) :
    ∀ (l : List ConfNodeClient) (u : Unit),
      validate_each_client l tt = Except.ok u →
      ∀ c ∈ l, conf_node_args_ok c.args tt = Except.ok () := by
  intro l
  induction l with
  | nil => intro u _ s hs; simp at hs
  | cons a as ih =>
    intro u h s hs
    simp only [validate_each_client, except_bind_eq_ok] at h
    obtain ⟨b, hb, hrest⟩ := h
    rcases List.mem_cons.mp hs with rfl | hmem
    · cases b; exact hb
    · exact ih () (by cases u; exact hrest) s hmem

theorem node_server_parse_inv (v : JValue) (n : ConfNodeServer)
    (h : conf_node_server_parse v = Except.ok n) : nodeS_inv n := by
  cases v with
  | obj fields =>
    simp only [conf_node_server_parse, except_bind_eq_ok] at h
    obtain ⟨name, hname, sriov, hsriov, dn0, hdn0, dn, hdn, pp, hpp, args, hargs,
      pers, hpers, hif⟩ := h
    rw [guardKeys_eq_ok] at hif
    cases hif.2
    exact ⟨popNameChecked_ok fields validate_dns_name name hname, rfl⟩
  | null => simp [conf_node_server_parse] at h
  | bool b => simp [conf_node_server_parse] at h
  | intg w => simp [conf_node_server_parse] at h
  | num q => simp [conf_node_server_parse] at h
  | str s => simp [conf_node_server_parse] at h
  | arr xs => simp [conf_node_server_parse] at h

theorem node_client_parse_inv (v : JValue) (n : ConfNodeClient)
    (h : conf_node_client_parse v = Except.ok n) : nodeC_inv n := by
  cases v with
  | obj fields =>
    simp only [conf_node_client_parse, except_bind_eq_ok] at h
    obtain ⟨name, hname, sriov, hsriov, dn0, hdn0, dn, hdn, pp, hpp, args, hargs,
      hif⟩ := h
    rw [guardKeys_eq_ok] at hif
    cases hif.2
    exact ⟨popNameChecked_ok fields validate_dns_name name hname, rfl⟩
  | null => simp [conf_node_client_parse] at h
  | bool b => simp [conf_node_client_parse] at h
  | intg w => simp [conf_node_client_parse] at h
  | num q => simp [conf_node_client_parse] at h
  | str s => simp [conf_node_client_parse] at h
  | arr xs => simp [conf_node_client_parse] at h

theorem plugin_parse_inv (v : JValue) (p : ConfPlugin)
    (h : conf_plugin_parse v = Except.ok p) : plugin_inv p := by
  cases v with
  | str s =>
    simp only [conf_plugin_parse] at h
    cases hg : pluginGetByName s with
    | some pl => rw [hg] at h; cases h; exact hg
    | none => rw [hg] at h; simp at h
  | obj fields =>
    simp only [conf_plugin_parse, except_bind_eq_ok] at h
    obtain ⟨name, hname, hif⟩ := h
    rw [guardKeys_eq_ok] at hif
    obtain ⟨hk, hif⟩ := hif
    cases hg : pluginGetByName name with
    | some pl => rw [hg] at hif; cases hif; exact hg
    | none => rw [hg] at hif; simp at hif
  | null => simp [conf_plugin_parse] at h
  | bool b => simp [conf_plugin_parse] at h
  | intg w => simp [conf_plugin_parse] at h
  | num q => simp [conf_plugin_parse] at h
  | arr xs => simp [conf_plugin_parse] at h

theorem conn_parse_inv (idx : ℕ) (tn ns : String) (v : JValue) (c : ConfConnection)
    (h : conf_connection_parse idx tn ns v = Except.ok c) :
    conn_inv c ∧ c.nspace = ns := by
  cases v with
  | obj fields =>
    simp only [conf_connection_parse, except_bind_eq_ok] at h
    obtain ⟨name, hname, tt, htt, u, hu, inst, hinst, server, hserver, client,
      hclient, plugins, hplugins, nad, hnad, rn, hrn, hif⟩ := h
    rw [guardKeys_eq_ok] at hif
    obtain ⟨hk, hif⟩ := hif
    by_cases hs1 : server.length > 1
    · rw [if_pos hs1] at hif; simp at hif
    rw [if_neg hs1] at hif
    by_cases hc1 : client.length > 1
    · rw [if_pos hc1] at hif; simp at hif
    rw [if_neg hc1] at hif
    rw [except_bind_eq_ok] at hif
    obtain ⟨uv, huv, hok⟩ := hif
    cases hok
    simp only [conf_connection_validate, except_bind_eq_ok] at huv
    obtain ⟨u1, hu1, u2, hu2, _⟩ := huv
    have hsinv := popObjList_ok fields "server" _ _ server hserver
    have hcinv := popObjList_ok fields "client" _ _ client hclient
    have hpinv := popObjList_ok fields "plugins" _ _ plugins hplugins
    refine ⟨⟨?_, by dsimp only; omega, by dsimp only; omega, ?_, ?_, ?_⟩, rfl⟩
    · have := popIntCheck_ok_check fields "instances" 1 _ inst hinst
      simpa using this
    · intro s hs
      obtain ⟨j, w, hw⟩ := hsinv.1 s hs
      exact ⟨node_server_parse_inv w s hw,
        validate_each_server_inv tt server u1 hu1 s hs⟩
    · intro cl hcl
      obtain ⟨j, w, hw⟩ := hcinv.1 cl hcl
      exact ⟨node_client_parse_inv w cl hw,
        validate_each_client_inv tt client u2 hu2 cl hcl⟩
    · intro p hp
      obtain ⟨j, w, hw⟩ := hpinv.1 p hp
      exact plugin_parse_inv w p hw
  | null => simp [conf_connection_parse] at h
  | bool b => simp [conf_connection_parse] at h
  | intg w => simp [conf_connection_parse] at h
  | num q => simp [conf_connection_parse] at h
  | str s => simp [conf_connection_parse] at h
  | arr xs => simp [conf_connection_parse] at h

theorem test_parse_inv (idx : ℕ) (v : JValue) (t : ConfTest)
    (h : conf_test_parse idx v = Except.ok t) : test_inv t := by
  cases v with
  | obj fields =>
    simp only [conf_test_parse, except_bind_eq_ok] at h
    obtain ⟨name, hname, ns, hns, tcs, htcs, d, hd, pp, hpp, conns, hconns,
      logs, hlogs, hif⟩ := h
    rw [guardKeys_eq_ok] at hif
    cases hif.2
    have hcheck := popIntCheck_ok_check fields "duration" 0 _ d hd
    have hd0 : (0:ℤ) ≤ d := by simpa using hcheck
    have hcinv := popObjList_ok fields "connections" _ _ conns hconns
    refine ⟨?_, hcinv.2 rfl, ?_⟩
    · simp only
      split <;> omega
    · intro c hc
      obtain ⟨j, w, hw⟩ := hcinv.1 c hc
      exact conn_parse_inv j name ns w c hw
  | null => simp [conf_test_parse] at h
  | bool b => simp [conf_test_parse] at h
  | intg w => simp [conf_test_parse] at h
  | num q => simp [conf_test_parse] at h
  | str s => simp [conf_test_parse] at h
  | arr xs => simp [conf_test_parse] at h

theorem config_parse_inv (v : JValue) (cfg : ConfConfig)
    (h : conf_config_parse v = Except.ok cfg) : config_inv cfg := by
  cases v with
  | obj fields =>
    simp only [conf_config_parse, except_bind_eq_ok] at h
    obtain ⟨tft, htft, kc, hkc, kci, hkci, hif⟩ := h
    rw [guardKeys_eq_ok] at hif
    obtain ⟨hk, hif⟩ := hif
    by_cases hinfra : kci.isSome && !kc.isSome
    · rw [if_pos hinfra] at hif; simp at hif
    rw [if_neg hinfra] at hif
    cases hif
    have htinv := popObjList_ok fields "tft" _ _ tft htft
    refine ⟨htinv.2 rfl, ?_, ?_⟩
    · intro t ht
      obtain ⟨j, w, hw⟩ := htinv.1 t ht
      exact test_parse_inv j w t hw
    · intro hs
      simp only at hs ⊢
      cases hkcv : kc with
      | some s => rfl
      | none =>
        exfalso
        apply hinfra
        rw [hkcv] at *
        simp [hs]
  | null => simp [conf_config_parse] at h
  | bool b => simp [conf_config_parse] at h
  | intg w => simp [conf_config_parse] at h
  | num q => simp [conf_config_parse] at h
  | str s => simp [conf_config_parse] at h
  | arr xs => simp [conf_config_parse] at h

/-- **C8** (confirmed).  Serializing any successfully parsed configuration
tree and re-parsing the serialized document yields exactly the original
tree, field for field (the positional `yamlidx`/`yamlpath` and the
derived registry handles are not data of the tree). -/
theorem C8_serialize_parse_roundtrip (doc : JValue) (cfg : ConfConfig)
    (h : conf_config_parse doc = Except.ok cfg) :
    conf_config_parse (conf_config_serialize cfg) = Except.ok cfg :=
  config_roundtrip cfg (config_parse_inv doc cfg h)

/-- **C8** witness: the round trip on the concrete sample document. -/
theorem C8_witness :
    conf_config_parse (conf_config_serialize sampleConfig) =
      Except.ok sampleConfig :=
  C8_serialize_parse_roundtrip sampleDoc sampleConfig (by rfl)
